import Mathlib

/-!
Shallow embedding of the request-audit pipeline of the CVProject Django
application: the request-logging middleware (`audit/middleware.py`), the
`RequestLog` model (`audit/models.py`), the manager/statistics methods
(`audit/managers.py`) and the query/filter views (`audit/views.py`).

Python strings are modelled as Lean `String` (sequences of characters;
Python slicing counts code points, as does `List.take` on `String.data`).
Django querysets over the `RequestLog` table are modelled as
`List RequestLog` in iteration order; lazy query evaluation that can raise
(e.g. `int()` conversion of a filter value inside the ORM) is modelled with
`Except String`.
-/

namespace Audit

/-- Python string slicing `s[:n]` (counts code points). -/
def pyTake (n : Nat) (s : String) : String :=
  String.mk (s.data.take n)

/-- Python truthiness coercion `s or None` used as `value[:n] or None` in
`_log_request`: an empty string becomes `None`. -/
def pyOrNone (s : String) : Option String :=
  if s = "" then none else some s

/-- Python truthiness of an optional numeric primary key (`request.user.pk`):
`None` and `0` are falsy. -/
def pyTruthyNat (p : Option Nat) : Bool :=
  match p with
  | some n => n != 0
  | none => false

/-- Python truthiness of an optional GET parameter (`if value:`): absent or
empty string is falsy. -/
def pyTruthyStr (p : Option String) : Bool :=
  match p with
  | some s => s != ""
  | none => false

/-- Python `s.split(',')[0]`: the characters before the first comma (the whole
string when it has no comma). -/
def pySplitFirst (s : String) : String :=
  String.mk (s.data.takeWhile (fun c => c ≠ ','))

/-- Python `s.strip()`: remove leading and trailing whitespace. -/
def pyStrip (s : String) : String :=
  String.mk (((s.data.dropWhile Char.isWhitespace).reverse.dropWhile Char.isWhitespace).reverse)

/-- Python `s.startswith(p)`. -/
def pyStartsWith (s p : String) : Bool :=
  p.data.isPrefixOf s.data

/-- All-decimal-digit parse of a nonempty character list (helper for `int()`). -/
def pyDigits? (cs : List Char) : Option Nat :=
  if cs.isEmpty then none
  else if cs.all Char.isDigit then
    some (cs.foldl (fun acc c => acc * 10 + (c.toNat - '0'.toNat)) 0)
  else none

/-- Python `int(s)` on a string: optional surrounding whitespace, optional
sign, decimal digits; `none` models a raised `ValueError`. -/
def pythonInt (s : String) : Option Int :=
  match (pyStrip s).data with
  | '-' :: rest => (pyDigits? rest).map (fun n => -(n : Int))
  | '+' :: rest => (pyDigits? rest).map (fun n => (n : Int))
  | cs => (pyDigits? cs).map (fun n => (n : Int))

/-- The resolved actor attached to a request (`request.user`): either the
anonymous user (`is_authenticated = false`, `pk = none`) or an authenticated
`User` row. -/
structure Actor where
  is_authenticated : Bool
  is_staff : Bool
  is_superuser : Bool
  pk : Option Nat
  username : String
  email : String
deriving DecidableEq

/-- The request data the middleware reads: method, path, and the `META`
entries it consults (`QUERY_STRING` and `HTTP_USER_AGENT` default to `''`,
`HTTP_X_FORWARDED_FOR` and `REMOTE_ADDR` may be absent). -/
structure HttpRequest where
  method : String
  path : String
  query_string_meta : String
  http_user_agent : String
  http_x_forwarded_for : Option String
  remote_addr : Option String
  user : Actor
deriving DecidableEq

/-- The response data the middleware reads: status code and body content. -/
structure HttpResponse where
  status_code : Nat
  content : String
deriving DecidableEq

/-- One row of the `audit_requestlog` table (`audit/models.py`,
class `RequestLog`). `timestamp` is modelled as an abstract instant (Nat). -/
structure RequestLog where
  timestamp : Nat
  http_method : String
  path : String
  query_string : Option String
  remote_ip : Option String
  user_agent : Option String
  user : Option Actor
  response_status : Option Nat
  response_time_ms : Option Nat
  request_size_bytes : Option Nat
  response_size_bytes : Option Nat
  is_authenticated : Bool
  is_staff : Bool
  is_superuser : Bool
deriving DecidableEq

/-- The middleware configuration fixed at process start
(`RequestLoggingMiddleware.__init__`). -/
structure MiddlewareConfig where
  excluded_paths : List String
  excluded_methods : List String
  log_authenticated_only : Bool
deriving DecidableEq

/-- The default configuration from `RequestLoggingMiddleware.__init__` when
no `REQUEST_LOG_*` settings are present. -/
def defaultConfig : MiddlewareConfig :=
  { excluded_paths := ["/admin/jsi18n/", "/static/", "/media/", "/favicon.ico"]
    excluded_methods := ["OPTIONS"]
    log_authenticated_only := false }

/-- `RequestLoggingMiddleware._get_client_ip`: first comma token of
`HTTP_X_FORWARDED_FOR` (stripped) when that header is truthy, else
`REMOTE_ADDR`. -/
def getClientIp (req : HttpRequest) : Option String :=
  match req.http_x_forwarded_for with
  | some xff =>
      if xff != "" then some (pyStrip (pySplitFirst xff))
      else req.remote_addr
  | none => req.remote_addr

/-- `RequestLoggingMiddleware._should_log_request`: the ordered skip rules. -/
def shouldLogRequest (cfg : MiddlewareConfig) (req : HttpRequest) : Bool :=
  if cfg.log_authenticated_only && !req.user.is_authenticated then false
  else if cfg.excluded_methods.contains req.method then false
  else if cfg.excluded_paths.any (fun p => pyStartsWith req.path p) then false
  else true

/-- The `RequestLog.objects.create(...)` call of
`RequestLoggingMiddleware._log_request`. `now` models the `timestamp` default
(capture time); `response_time_ms` and `request_size_bytes` are the values
computed from the wall clock and `process_request`, passed in as inputs. -/
def buildLogRecord (req : HttpRequest) (resp : HttpResponse) (now : Nat)
    (response_time_ms request_size_bytes : Option Nat) : RequestLog :=
  { timestamp := now
    http_method := req.method
    path := pyTake 500 req.path
    query_string := pyOrNone (pyTake 1000 req.query_string_meta)
    remote_ip := getClientIp req
    user_agent := pyOrNone (pyTake 500 req.http_user_agent)
    user :=
      if req.user.is_authenticated && pyTruthyNat req.user.pk then some req.user
      else none
    response_status := some resp.status_code
    response_time_ms := response_time_ms
    request_size_bytes := request_size_bytes
    response_size_bytes := some resp.content.length
    is_authenticated := req.user.is_authenticated
    is_staff := if req.user.is_authenticated then req.user.is_staff else false
    is_superuser := if req.user.is_authenticated then req.user.is_superuser else false }

/-- `RequestLoggingMiddleware._log_request` as a fallible action: `fails`
models any exception raised while extracting fields or persisting the row
(e.g. a store write error); on success exactly the built record is
persisted. -/
def logRequest (fails : Bool) (req : HttpRequest) (resp : HttpResponse) (now : Nat)
    (response_time_ms request_size_bytes : Option Nat) : Except String RequestLog :=
  if fails then Except.error "store write error"
  else Except.ok (buildLogRecord req resp now response_time_ms request_size_bytes)

/-- `RequestLoggingMiddleware.process_response`: returns the response passed
in, together with the list of `RequestLog` rows persisted for this request.
An exception inside `_log_request` is caught (`except Exception`), logged
operationally, and the response is returned unchanged. -/
def processResponse (cfg : MiddlewareConfig) (fails : Bool) (req : HttpRequest)
    (resp : HttpResponse) (now : Nat) (response_time_ms request_size_bytes : Option Nat) :
    HttpResponse × List RequestLog :=
  if shouldLogRequest cfg req then
    match logRequest fails req resp now response_time_ms request_size_bytes with
    | Except.ok r => (resp, [r])
    | Except.error _ => (resp, [])
  else (resp, [])

/-- Membership test for a nullable status in a half-open range, as produced
by the manager filters `response_status__gte=lo, response_status__lt=hi`
(SQL `NULL` never matches). -/
def statusInRange (lo hi : Nat) (r : RequestLog) : Bool :=
  match r.response_status with
  | some s => decide (lo ≤ s) && decide (s < hi)
  | none => false

/-- `RequestLogManager.successful`: status in [200, 300). -/
def successful (logs : List RequestLog) : List RequestLog :=
  logs.filter (statusInRange 200 300)

/-- `RequestLogManager.client_errors`: status in [400, 500). -/
def clientErrors (logs : List RequestLog) : List RequestLog :=
  logs.filter (statusInRange 400 500)

/-- `RequestLogManager.server_errors`: status in [500, 600). -/
def serverErrors (logs : List RequestLog) : List RequestLog :=
  logs.filter (statusInRange 500 600)

/-- The dictionary returned by `RequestLogManager.get_stats`; the two rates
are Python floats computed by true division, modelled as rationals. -/
structure Stats where
  total_requests : Nat
  successful_requests : Nat
  client_errors : Nat
  server_errors : Nat
  success_rate : ℚ
  error_rate : ℚ
deriving DecidableEq

/-- `RequestLogManager.get_stats`. -/
def getStats (logs : List RequestLog) : Stats :=
  let total := logs.length
  let s := (successful logs).length
  let c := (clientErrors logs).length
  let e := (serverErrors logs).length
  { total_requests := total
    successful_requests := s
    client_errors := c
    server_errors := e
    success_rate := if total > 0 then (s : ℚ) / (total : ℚ) * 100 else 0
    error_rate := if total > 0 then ((c : ℚ) + (e : ℚ)) / (total : ℚ) * 100 else 0 }

/-- Django `__icontains`: case-insensitive substring match. -/
def icontains (hay term : String) : Bool :=
  let h := hay.data.map Char.toLower
  let t := term.data.map Char.toLower
  (h.tails.any (fun suf => t.isPrefixOf suf))

/-- `__icontains` across a nullable column: SQL `NULL` never matches. -/
def icontainsOpt (hay : Option String) (term : String) : Bool :=
  match hay with
  | some h => icontains h term
  | none => false

/-- `__icontains` through the `user` foreign key (`user__username`): a null
foreign key never matches. -/
def icontainsUser (u : Option Actor) (term : String) : Bool :=
  match u with
  | some a => icontains a.username term
  | none => false

/-- The free-text search `Q` disjunction of `RecentRequestsView.get_queryset`
(path, method, remote IP, or actor username). -/
def searchMatchListing (term : String) (r : RequestLog) : Bool :=
  icontains r.path term || icontains r.http_method term ||
    icontainsOpt r.remote_ip term || icontainsUser r.user term

/-- The free-text search `Q` disjunction of `logs_api_view` (path, method, or
remote IP only). -/
def searchMatchApi (term : String) (r : RequestLog) : Bool :=
  icontains r.path term || icontains r.http_method term ||
    icontainsOpt r.remote_ip term

/-- Whether a stored (nullable) status equals a filter value already
converted to an integer. -/
def statusEquals (n : Int) (r : RequestLog) : Bool :=
  match r.response_status with
  | some s => decide ((s : Int) = n)
  | none => false

/-- `queryset.filter(response_status=status_filter)` with a string filter
value: Django's `IntegerField.get_prep_value` applies `int()` to the value
and raises `ValueError` when it is not numeric; the error is modelled as
`Except.error`. -/
def filterByStatus (status_filter : String) (logs : List RequestLog) :
    Except String (List RequestLog) :=
  match pythonInt status_filter with
  | some n => Except.ok (logs.filter (statusEquals n))
  | none => Except.error "Field response_status expected a number"

/-- Insertion step for descending-timestamp ordering. -/
def insertByTimestampDesc (r : RequestLog) : List RequestLog → List RequestLog
  | [] => [r]
  | x :: xs =>
      if r.timestamp ≤ x.timestamp then x :: insertByTimestampDesc r xs
      else r :: x :: xs

/-- `order_by('-timestamp')`: stable sort, newest first. -/
def orderByTimestampDesc (logs : List RequestLog) : List RequestLog :=
  match logs with
  | [] => []
  | x :: xs => insertByTimestampDesc x (orderByTimestampDesc xs)

/-- `RecentRequestsView.get_queryset`: conjunctive search / method / status /
auth filters, then `order_by('-timestamp')`. An unparseable status filter
value propagates Django's `ValueError`. -/
def recentRequestsQueryset (search method_p status auth : Option String)
    (logs : List RequestLog) : Except String (List RequestLog) := do
  let q1 :=
    if pyTruthyStr search then logs.filter (searchMatchListing (search.getD ""))
    else logs
  let q2 :=
    if pyTruthyStr method_p then q1.filter (fun r => r.http_method == method_p.getD "")
    else q1
  let q3 ←
    if pyTruthyStr status then filterByStatus (status.getD "") q2
    else Except.ok q2
  let q4 :=
    match auth with
    | some "authenticated" => q3.filter (fun r => r.is_authenticated)
    | some "anonymous" => q3.filter (fun r => !r.is_authenticated)
    | _ => q3
  Except.ok (orderByTimestampDesc q4)

/-- The filtered, ordered queryset built inside `logs_api_view` before
slicing (search over path/method/IP, then method and status filters). -/
def apiQueryset (search method_p status : Option String)
    (logs : List RequestLog) : Except String (List RequestLog) := do
  let ordered := orderByTimestampDesc logs
  let q1 :=
    if pyTruthyStr search then ordered.filter (searchMatchApi (search.getD ""))
    else ordered
  let q2 :=
    if pyTruthyStr method_p then q1.filter (fun r => r.http_method == method_p.getD "")
    else q1
  if pyTruthyStr status then filterByStatus (status.getD "") q2
  else Except.ok q2

/-- Django queryset slicing `qs[lo:hi]`: negative bounds raise
(`Negative indexing is not supported`); otherwise the elements with indices
in `[lo, hi)`. -/
def djangoSlice (lo hi : Int) (l : List RequestLog) : Except String (List RequestLog) :=
  if lo < 0 ∨ hi < 0 then Except.error "Negative indexing is not supported."
  else Except.ok ((l.drop lo.toNat).take (hi.toNat - lo.toNat))

/-- The JSON payload of `logs_api_view` (record dictionaries abbreviated to
the records themselves). -/
structure ApiResponse where
  logs : List RequestLog
  total_count : Nat
  limit : Int
  offset : Int
  has_more : Bool
deriving DecidableEq

/-- Outcome of `logs_api_view`: a 401 JSON error for an unauthenticated
caller, or the data payload. -/
inductive ApiOutcome where
  | unauthorized
  | success (resp : ApiResponse)
deriving DecidableEq

/-- `int(request.GET.get(name, default))`: the integer default is used when
the parameter is absent; a present parameter is converted with `int()`,
raising (modelled as `Except.error`) when not numeric. -/
def parseIntParam (p : Option String) (default : Int) : Except String Int :=
  match p with
  | none => Except.ok default
  | some s =>
      match pythonInt s with
      | some n => Except.ok n
      | none => Except.error "invalid literal for int"

/-- `logs_api_view`: auth check, `limit = min(int(GET limit, 10), 100)`,
`offset = int(GET offset, 0)`, filtered queryset, slice
`queryset[offset:offset+limit]`, and the response dictionary with
`total_count`, `limit`, `offset` and `has_more = count > offset + limit`. -/
def logsApiView (user_is_authenticated : Bool)
    (limit_p offset_p search method_p status : Option String)
    (logs : List RequestLog) : Except String ApiOutcome := do
  if !user_is_authenticated then
    return ApiOutcome.unauthorized
  let limit_raw ← parseIntParam limit_p 10
  let limit := min limit_raw 100
  let offset ← parseIntParam offset_p 0
  let queryset ← apiQueryset search method_p status logs
  let page ← djangoSlice offset (offset + limit) queryset
  Except.ok (ApiOutcome.success
    { logs := page
      total_count := queryset.length
      limit := limit
      offset := offset
      has_more := decide ((queryset.length : Int) > offset + limit) })

/-- A sample authenticated actor used in concrete witnesses. -/
def sampleUser : Actor :=
  { is_authenticated := true, is_staff := false, is_superuser := false
    pk := some 1, username := "alice", email := "alice@example.com" }

/-- The anonymous actor (`AnonymousUser`): unauthenticated, no primary key. -/
def anonymousUser : Actor :=
  { is_authenticated := false, is_staff := false, is_superuser := false
    pk := none, username := "", email := "" }

/-- A sample request used in concrete witnesses. -/
def sampleRequest : HttpRequest :=
  { method := "GET", path := "/cv/", query_string_meta := "", http_user_agent := ""
    http_x_forwarded_for := some "203.0.113.195, 70.41.3.18"
    remote_addr := some "10.0.0.1", user := sampleUser }

/-- A sample response used in concrete witnesses. -/
def sampleResponse : HttpResponse :=
  { status_code := 200, content := "ok" }

/-- A sample stored log row used in concrete view-level checks. -/
def sampleLog : RequestLog :=
  { timestamp := 5, http_method := "GET", path := "/cv/", query_string := none
    remote_ip := some "1.2.3.4", user_agent := none, user := some sampleUser
    response_status := some 200, response_time_ms := none
    request_size_bytes := none, response_size_bytes := none
    is_authenticated := true, is_staff := false, is_superuser := false }

theorem shouldLogRequest_eq_false_iff (cfg : MiddlewareConfig) (req : HttpRequest) :
    shouldLogRequest cfg req = false ↔
      (cfg.log_authenticated_only = true ∧ req.user.is_authenticated = false) ∨
      req.method ∈ cfg.excluded_methods ∨
      (∃ p ∈ cfg.excluded_paths, pyStartsWith req.path p = true) := by
  unfold shouldLogRequest
  split_ifs with h1 h2 h3
  · simp only [Bool.and_eq_true, Bool.not_eq_true'] at h1
    simp [h1]
  · replace h2 : req.method ∈ cfg.excluded_methods := List.elem_iff.mp h2
    simp [h2]
  · rw [List.any_eq_true] at h3
    simp [h3]
  · simp only [Bool.and_eq_true, Bool.not_eq_true'] at h1
    replace h2 : req.method ∉ cfg.excluded_methods := fun hm => h2 (List.elem_iff.mpr hm)
    rw [List.any_eq_true] at h3
    push_neg at h3
    constructor
    · intro h; exact absurd h (by simp)
    · rintro (⟨ha, hb⟩ | hm | ⟨p, hp, hs⟩)
      · exact absurd (And.intro ha hb) (by tauto)
      · exact absurd hm h2
      · exact absurd hs (by simpa using h3 p hp)

end Audit

namespace Audit

/-- C1: if an exception is raised while extracting fields or persisting the
LogRecord, it is caught in `process_response`: the response returned to the
client is exactly the handler's response, and zero LogRecords are persisted
for that request. -/
theorem c1_logging_failure_is_contained (cfg : MiddlewareConfig) (req : HttpRequest)
    (resp : HttpResponse) (now : Nat) (rt rs : Option Nat) :
    (processResponse cfg true req resp now rt rs).1 = resp ∧
    (processResponse cfg true req resp now rt rs).2 = [] := by
  unfold processResponse logRequest
  by_cases h : shouldLogRequest cfg req <;> simp [h]

/-- C2: when persistence succeeds, zero LogRecords are created exactly when
the ordered exclusion rules fire (authenticated-only with anonymous actor,
excluded method, or excluded path prefix), and exactly one record is created
otherwise. -/
theorem c2_exclusion_rules_characterize_logging (cfg : MiddlewareConfig)
    (req : HttpRequest) (resp : HttpResponse) (now : Nat) (rt rs : Option Nat) :
    ((processResponse cfg false req resp now rt rs).2.length = 0 ↔
      (cfg.log_authenticated_only = true ∧ req.user.is_authenticated = false) ∨
      req.method ∈ cfg.excluded_methods ∨
      (∃ p ∈ cfg.excluded_paths, pyStartsWith req.path p = true)) ∧
    ((processResponse cfg false req resp now rt rs).2.length = 1 ↔
      ¬ ((cfg.log_authenticated_only = true ∧ req.user.is_authenticated = false) ∨
        req.method ∈ cfg.excluded_methods ∨
        (∃ p ∈ cfg.excluded_paths, pyStartsWith req.path p = true))) := by
  rw [← shouldLogRequest_eq_false_iff cfg req]
  unfold processResponse logRequest
  by_cases h : shouldLogRequest cfg req <;> simp [h]

/-- C3: the stored `remote_ip` is the first comma-separated token of the
forwarded-for header, stripped of surrounding whitespace, when that header is
present and nonempty, and the direct connection address otherwise; in
particular `"203.0.113.195, 70.41.3.18"` yields `"203.0.113.195"`. -/
theorem c3_remote_ip_forwarded_first_token :
    (∀ req s, req.http_x_forwarded_for = some s → s ≠ "" →
      getClientIp req = some (pyStrip (pySplitFirst s))) ∧
    (∀ req, req.http_x_forwarded_for = none ∨ req.http_x_forwarded_for = some "" →
      getClientIp req = req.remote_addr) ∧
    (∀ req, req.http_x_forwarded_for = some "203.0.113.195, 70.41.3.18" →
      getClientIp req = some "203.0.113.195") := by
  refine ⟨?_, ?_, ?_⟩
  · intro req s hs hne
    unfold getClientIp
    rw [hs]
    simp [hne]
  · intro req h
    rcases h with h | h <;> (unfold getClientIp; rw [h]; try simp)
  · intro req h
    unfold getClientIp
    rw [h]
    have hcond : ("203.0.113.195, 70.41.3.18" != "") = true := by decide
    have hval : pyStrip (pySplitFirst "203.0.113.195, 70.41.3.18") = "203.0.113.195" := by decide
    simp only [hcond, if_true, hval]

/-- Witness for C3 at the concrete request `sampleRequest`. -/
theorem c3_witness : getClientIp sampleRequest = some "203.0.113.195" :=
  c3_remote_ip_forwarded_first_token.2.2 sampleRequest rfl

theorem pyTake_length_le (n : Nat) (s : String) : (pyTake n s).length ≤ n := by
  simp only [pyTake, String.length_mk, List.length_take]
  exact min_le_left _ _

theorem string_eq_empty_iff_data (s : String) : s = "" ↔ s.data = [] :=
  String.ext_iff

theorem pyTake_ne_empty (n : Nat) (s : String) (hs : s ≠ "") (hn : 0 < n) :
    pyTake n s ≠ "" := by
  intro hc
  apply hs
  rw [string_eq_empty_iff_data] at hc ⊢
  simp only [pyTake] at hc
  rcases List.take_eq_nil_iff.mp hc with h | h
  · omega
  · exact h

/-- C9: every record built by the Interceptor has `path` truncated to at most
500 characters and nonempty (requests always carry a nonempty path), and
`query_string` and `user_agent` truncated to 1000 and 500 characters
respectively, all before persistence. -/
theorem c9_truncation_invariants (req : HttpRequest) (resp : HttpResponse)
    (now : Nat) (rt rs : Option Nat) :
    ((buildLogRecord req resp now rt rs).path.length ≤ 500) ∧
    (req.path ≠ "" → (buildLogRecord req resp now rt rs).path ≠ "") ∧
    (∀ q, (buildLogRecord req resp now rt rs).query_string = some q → q.length ≤ 1000) ∧
    (∀ u, (buildLogRecord req resp now rt rs).user_agent = some u → u.length ≤ 500) := by
  refine ⟨pyTake_length_le 500 req.path, ?_, ?_, ?_⟩
  · intro h
    exact pyTake_ne_empty 500 req.path h (by omega)
  · intro q hq
    simp only [buildLogRecord, pyOrNone] at hq
    by_cases h : pyTake 1000 req.query_string_meta = ""
    · rw [if_pos h] at hq
      cases hq
    · rw [if_neg h] at hq
      injection hq with hq
      rw [← hq]
      exact pyTake_length_le 1000 _
  · intro u hu
    simp only [buildLogRecord, pyOrNone] at hu
    by_cases h : pyTake 500 req.http_user_agent = ""
    · rw [if_pos h] at hu
      cases hu
    · rw [if_neg h] at hu
      injection hu with hu
      rw [← hu]
      exact pyTake_length_le 500 _

/-- Witness for C9: the sample request has a nonempty path, and the built
record keeps it nonempty and within bounds. -/
theorem c9_witness :
    (buildLogRecord sampleRequest sampleResponse 0 none none).path.length ≤ 500 ∧
    (buildLogRecord sampleRequest sampleResponse 0 none none).path ≠ "" :=
  ⟨(c9_truncation_invariants sampleRequest sampleResponse 0 none none).1,
   (c9_truncation_invariants sampleRequest sampleResponse 0 none none).2.1 (by decide)⟩

/-- C10: a record built for an anonymous request has a null actor reference
and false staff/superuser flags; the actor reference is non-null only when
the actor was authenticated with a truthy primary key; and an empty query
string or user-agent header is stored as null, not as an empty string. -/
theorem c10_anonymous_and_null_normalization (req : HttpRequest) (resp : HttpResponse)
    (now : Nat) (rt rs : Option Nat) :
    (req.user.is_authenticated = false →
      (buildLogRecord req resp now rt rs).user = none ∧
      (buildLogRecord req resp now rt rs).is_staff = false ∧
      (buildLogRecord req resp now rt rs).is_superuser = false ∧
      (buildLogRecord req resp now rt rs).is_authenticated = false) ∧
    ((buildLogRecord req resp now rt rs).user ≠ none →
      req.user.is_authenticated = true ∧ pyTruthyNat req.user.pk = true) ∧
    (req.query_string_meta = "" → (buildLogRecord req resp now rt rs).query_string = none) ∧
    (req.http_user_agent = "" → (buildLogRecord req resp now rt rs).user_agent = none) := by
  refine ⟨?_, ?_, ?_, ?_⟩
  · intro h
    simp [buildLogRecord, h]
  · intro h
    simp only [buildLogRecord] at h
    by_cases hc : (req.user.is_authenticated && pyTruthyNat req.user.pk) = true
    · exact Bool.and_eq_true _ _ |>.mp hc
    · rw [if_neg hc] at h
      exact absurd rfl h
  · intro h
    have : pyTake 1000 req.query_string_meta = "" := by
      rw [h]; decide
    simp [buildLogRecord, pyOrNone, this]
  · intro h
    have : pyTake 500 req.http_user_agent = "" := by
      rw [h]; decide
    simp [buildLogRecord, pyOrNone, this]

/-- An anonymous request used in the C10 witness. -/
def anonymousRequest : HttpRequest :=
  { method := "GET", path := "/cv/", query_string_meta := "", http_user_agent := ""
    http_x_forwarded_for := none, remote_addr := some "10.0.0.1", user := anonymousUser }

/-- Witness for C10 at a concrete anonymous request with empty query string
and user agent. -/
theorem c10_witness :
    (buildLogRecord anonymousRequest sampleResponse 0 none none).user = none ∧
    (buildLogRecord anonymousRequest sampleResponse 0 none none).is_staff = false ∧
    (buildLogRecord anonymousRequest sampleResponse 0 none none).query_string = none ∧
    (buildLogRecord anonymousRequest sampleResponse 0 none none).user_agent = none := by
  obtain ⟨h1, h2, h3⟩ := c10_anonymous_and_null_normalization anonymousRequest sampleResponse 0 none none
  exact ⟨(h1 rfl).1, (h1 rfl).2.1, h3.1 rfl, h3.2 rfl⟩

theorem length_filter_three_disjoint_le {α : Type} (l : List α) (p q w : α → Bool)
    (hpq : ∀ x, p x = true → q x = false)
    (hpw : ∀ x, p x = true → w x = false)
    (hqw : ∀ x, q x = true → w x = false) :
    (l.filter p).length + (l.filter q).length + (l.filter w).length ≤ l.length := by
  induction l with
  | nil => simp
  | cons a t ih =>
      simp only [List.filter_cons, List.length_cons]
      by_cases hp : p a = true
      · simp only [hp, hpq a hp, hpw a hp]
        simp only [if_true, Bool.false_eq_true, if_false, List.length_cons]
        omega
      · by_cases hq : q a = true
        · simp only [hq, hqw a hq, hp]
          simp only [if_true, Bool.false_eq_true, if_false, List.length_cons]
          omega
        · by_cases hw : w a = true
          · simp only [hp, hq, hw]
            simp only [if_true, Bool.false_eq_true, if_false, List.length_cons]
            omega
          · simp only [hp, hq, hw]
            simp only [Bool.false_eq_true, if_false]
            omega

theorem statusInRange_disjoint (lo₁ hi₁ lo₂ hi₂ : Nat) (h : hi₁ ≤ lo₂) (r : RequestLog)
    (h₁ : statusInRange lo₁ hi₁ r = true) : statusInRange lo₂ hi₂ r = false := by
  unfold statusInRange at h₁ ⊢
  cases hs : r.response_status with
  | none => rfl
  | some s =>
      rw [hs] at h₁
      simp only [Bool.and_eq_true, decide_eq_true_eq] at h₁
      simp only [Bool.and_eq_false_iff, decide_eq_false_iff_not]
      left
      omega

theorem stats_counts_le (logs : List RequestLog) :
    (successful logs).length + (clientErrors logs).length + (serverErrors logs).length ≤
      logs.length := by
  unfold successful clientErrors serverErrors
  exact length_filter_three_disjoint_le logs _ _ _
    (statusInRange_disjoint 200 300 400 500 (by omega))
    (statusInRange_disjoint 200 300 500 600 (by omega))
    (statusInRange_disjoint 400 500 500 600 (by omega))

/-- The three sample rows with statuses 200, 404 and 500 from the spec's
aggregate-statistics example. -/
def statsExampleLogs : List RequestLog :=
  [{ sampleLog with response_status := some 200 },
   { sampleLog with response_status := some 404 },
   { sampleLog with response_status := some 500 }]

/-- C4: `get_stats` returns the record count, the counts of records with
status in [200,300), [400,500) and [500,600), and percentage rates that are
`count/total*100` for a nonempty set and 0 for an empty one; on statuses
[200, 404, 500] it returns total 3, one record in each class, success rate
100/3 and error rate 200/3. -/
theorem c4_get_stats_correct :
    (∀ logs : List RequestLog,
      (getStats logs).total_requests = logs.length ∧
      (getStats logs).successful_requests = (logs.filter (statusInRange 200 300)).length ∧
      (getStats logs).client_errors = (logs.filter (statusInRange 400 500)).length ∧
      (getStats logs).server_errors = (logs.filter (statusInRange 500 600)).length ∧
      (0 < logs.length →
        (getStats logs).success_rate =
          ((logs.filter (statusInRange 200 300)).length : ℚ) / (logs.length : ℚ) * 100 ∧
        (getStats logs).error_rate =
          (((logs.filter (statusInRange 400 500)).length : ℚ) +
            ((logs.filter (statusInRange 500 600)).length : ℚ)) / (logs.length : ℚ) * 100) ∧
      (logs.length = 0 →
        (getStats logs).success_rate = 0 ∧ (getStats logs).error_rate = 0)) ∧
    getStats statsExampleLogs =
      { total_requests := 3, successful_requests := 1, client_errors := 1
        server_errors := 1, success_rate := 100 / 3, error_rate := 200 / 3 } := by
  constructor
  · intro logs
    refine ⟨rfl, rfl, rfl, rfl, ?_, ?_⟩
    · intro h
      constructor <;> simp [getStats, successful, clientErrors, serverErrors, h]
    · intro h
      constructor <;> simp [getStats, h]
  · have h1 : (successful statsExampleLogs).length = 1 := by decide
    have h2 : (clientErrors statsExampleLogs).length = 1 := by decide
    have h3 : (serverErrors statsExampleLogs).length = 1 := by decide
    have h0 : statsExampleLogs.length = 3 := by decide
    simp only [getStats, h1, h2, h3, h0, Stats.mk.injEq]
    norm_num

/-- Witness for C4: the rates of the [200, 404, 500] example, obtained from
the general statement with its positivity hypothesis discharged. -/
theorem c4_witness :
    (getStats statsExampleLogs).success_rate =
      ((statsExampleLogs.filter (statusInRange 200 300)).length : ℚ) /
        (statsExampleLogs.length : ℚ) * 100 :=
  ((c4_get_stats_correct.1 statsExampleLogs).2.2.2.2.1 (by decide)).1

/-- C8: for any record set, `success_rate + error_rate ≤ 100`, both rates are
0 on the empty set, and a record with an absent or out-of-range status lies
in none of the three status classes (it contributes to `total` only). -/
theorem c8_rates_bounded (logs : List RequestLog) :
    (getStats logs).success_rate + (getStats logs).error_rate ≤ 100 ∧
    (logs.length = 0 → (getStats logs).success_rate = 0 ∧ (getStats logs).error_rate = 0) ∧
    (∀ r : RequestLog, r.response_status = none →
      statusInRange 200 300 r = false ∧ statusInRange 400 500 r = false ∧
        statusInRange 500 600 r = false) := by
  refine ⟨?_, ?_, ?_⟩
  · by_cases h : logs.length = 0
    · simp [getStats, h]
    · have hpos : 0 < logs.length := Nat.pos_of_ne_zero h
      have hcount := stats_counts_le logs
      simp only [getStats, if_pos hpos]
      set s := (successful logs).length with hs
      set c := (clientErrors logs).length with hc
      set e := (serverErrors logs).length with he
      set T := logs.length with hT
      have hTQ : (0 : ℚ) < (T : ℚ) := by exact_mod_cast hpos
      rw [div_mul_eq_mul_div, div_mul_eq_mul_div, div_add_div_same, div_le_iff₀ hTQ]
      have hcast : (s : ℚ) + (c : ℚ) + (e : ℚ) ≤ (T : ℚ) := by exact_mod_cast hcount
      nlinarith
  · intro h
    constructor <;> simp [getStats, h]
  · intro r h
    refine ⟨?_, ?_, ?_⟩ <;> (unfold statusInRange; rw [h])

/-- Witness for C8: on the empty record set both rates are 0 and their sum is
bounded by 100. -/
theorem c8_witness :
    (getStats ([] : List RequestLog)).success_rate +
      (getStats ([] : List RequestLog)).error_rate ≤ 100 ∧
    (getStats ([] : List RequestLog)).success_rate = 0 :=
  ⟨(c8_rates_bounded []).1, ((c8_rates_bounded []).2.1 rfl).1⟩

theorem insertByTimestampDesc_perm (r : RequestLog) (l : List RequestLog) :
    (insertByTimestampDesc r l).Perm (r :: l) := by
  induction l with
  | nil => simp [insertByTimestampDesc]
  | cons x xs ih =>
      unfold insertByTimestampDesc
      by_cases h : r.timestamp ≤ x.timestamp
      · rw [if_pos h]
        exact (ih.cons x).trans (List.Perm.swap r x xs)

      · rw [if_neg h]

theorem orderByTimestampDesc_perm (l : List RequestLog) :
    (orderByTimestampDesc l).Perm l := by
  induction l with
  | nil => simp [orderByTimestampDesc]
  | cons x xs ih =>
      unfold orderByTimestampDesc
      exact (insertByTimestampDesc_perm x (orderByTimestampDesc xs)).trans (ih.cons x)

theorem mem_orderByTimestampDesc (r : RequestLog) (l : List RequestLog) :
    r ∈ orderByTimestampDesc l ↔ r ∈ l :=
  (orderByTimestampDesc_perm l).mem_iff

/-- C5 counterexample: a status filter value that cannot be parsed as an
integer (here "abc") makes both query surfaces raise Django's conversion
error instead of returning zero results. -/
theorem c5_counterexample :
    recentRequestsQueryset none none (some "abc") none [sampleLog] =
      Except.error "Field response_status expected a number" ∧
    logsApiView true none none none none (some "abc") [sampleLog] =
      Except.error "Field response_status expected a number" :=
  ⟨rfl, rfl⟩

/-- C5 (amended): a status filter value that parses as an integer filters by
exact status match (so an unmatched numeric value yields zero results without
error), but a non-numeric status filter value raises an uncaught conversion
error on both query surfaces. -/
theorem c5_unparseable_status_filter (logs : List RequestLog) (s : String) :
    (∀ n : Int, pythonInt s = some n →
      filterByStatus s logs = Except.ok (logs.filter (statusEquals n))) ∧
    (pythonInt s = none →
      filterByStatus s logs = Except.error "Field response_status expected a number") ∧
    (pythonInt s = none → s ≠ "" →
      recentRequestsQueryset none none (some s) none logs =
        Except.error "Field response_status expected a number") ∧
    (pythonInt s = none → s ≠ "" →
      logsApiView true none none none none (some s) logs =
        Except.error "Field response_status expected a number") := by
  have hfilter : ∀ l : List RequestLog, pythonInt s = none →
      filterByStatus s l = Except.error "Field response_status expected a number" := by
    intro l h
    unfold filterByStatus
    rw [h]
  refine ⟨?_, hfilter logs, ?_, ?_⟩
  · intro n h
    unfold filterByStatus
    rw [h]
  · intro h hne
    have hb : (s != "") = true := bne_iff_ne.mpr hne
    simp [recentRequestsQueryset, pyTruthyStr, hb, hfilter _ h, Bind.bind, Except.bind]
  · intro h hne
    have hb : (s != "") = true := bne_iff_ne.mpr hne
    simp [logsApiView, apiQueryset, parseIntParam, pyTruthyStr, hb, hfilter _ h,
      Bind.bind, Except.bind, pure, Except.pure]

/-- Witness for C5 (amended): the numeric status filter "404" matches no
record in `[sampleLog]` (status 200) and yields zero results without
error. -/
theorem c5_witness : filterByStatus "404" [sampleLog] = Except.ok [] := by
  have h := (c5_unparseable_status_filter [sampleLog] "404").1 404 (by decide)
  have h2 : List.filter (statusEquals 404) [sampleLog] = [] := by decide
  rw [h2] at h
  exact h

/-- C6: on the API surface, a parsed nonnegative `limit` is reported as
`min(limit, 100)`, at most 100 records are returned, and the response carries
the total matching count and `has_more` true exactly when matching records
exist beyond `offset + limit`. -/
theorem c6_api_limit_clamped (logs qs : List RequestLog) (limit_s offset_s : String)
    (search method_p status : Option String) (n o : Int)
    (hn : pythonInt limit_s = some n) (hn0 : 0 ≤ n)
    (ho : pythonInt offset_s = some o) (ho0 : 0 ≤ o)
    (hqs : apiQueryset search method_p status logs = Except.ok qs) :
    ∃ r : ApiResponse,
      logsApiView true (some limit_s) (some offset_s) search method_p status logs =
        Except.ok (ApiOutcome.success r) ∧
      r.limit = min n 100 ∧
      r.logs.length ≤ 100 ∧
      r.total_count = qs.length ∧
      (r.has_more = true ↔ (qs.length : Int) > o + min n 100) := by
  have hm0 : 0 ≤ min n 100 := le_min hn0 (by norm_num)
  have hslice : djangoSlice o (o + min n 100) qs =
      Except.ok ((qs.drop o.toNat).take ((o + min n 100).toNat - o.toNat)) := by
    unfold djangoSlice
    rw [if_neg (by omega)]
  have hview : logsApiView true (some limit_s) (some offset_s) search method_p status logs =
      Except.ok (ApiOutcome.success
        { logs := (qs.drop o.toNat).take ((o + min n 100).toNat - o.toNat)
          total_count := qs.length
          limit := min n 100
          offset := o
          has_more := decide ((qs.length : Int) > o + min n 100) }) := by
    simp only [logsApiView, parseIntParam, hn, ho, hqs, hslice, Bind.bind, Except.bind,
      Bool.not_true, Bool.false_eq_true, if_false, pure, Except.pure]
  refine ⟨_, hview, rfl, ?_, rfl, ?_⟩
  · calc ((qs.drop o.toNat).take ((o + min n 100).toNat - o.toNat)).length
        ≤ (o + min n 100).toNat - o.toNat := List.length_take_le _ _
      _ ≤ 100 := by omega
  · simp only [decide_eq_true_eq]

/-- The 150-row store used in the C6 witness. -/
def c6Records : List RequestLog := List.replicate 150 sampleLog

/-- Witness for C6: a requested limit of 1000 is reported as 100 and at most
100 of the 150 matching records are returned. -/
theorem c6_witness :
    ∃ r : ApiResponse,
      logsApiView true (some "1000") (some "0") none none none c6Records =
        Except.ok (ApiOutcome.success r) ∧
      r.limit = min 1000 100 ∧
      r.logs.length ≤ 100 ∧
      r.total_count = (orderByTimestampDesc c6Records).length ∧
      (r.has_more = true ↔ ((orderByTimestampDesc c6Records).length : Int) > 0 + min 1000 100) :=
  c6_api_limit_clamped c6Records (orderByTimestampDesc c6Records) "1000" "0"
    none none none 1000 0 (by decide) (by decide) (by decide) (by decide) rfl

/-- C7 counterexample: for the term "alice" and a record whose actor username
is "alice" but whose path, method and remote IP do not contain the term, the
listing search matches yet the API search does not, so the two surfaces do
not share the four-field match rule. -/
theorem c7_counterexample :
    icontainsUser sampleLog.user "alice" = true ∧
    searchMatchListing "alice" sampleLog = true ∧
    searchMatchApi "alice" sampleLog = false ∧
    apiQueryset (some "alice") none none [sampleLog] = Except.ok [] :=
  ⟨by decide, by decide, by decide, rfl⟩

/-- C7 (amended): the listing surface matches a record iff its path, method,
remote IP or actor username contains the term (case-insensitive); the API
surface matches iff its path, method or remote IP contains the term — the
actor username is not searched there. -/
theorem c7_search_fields_per_surface (term : String) (hterm : term ≠ "")
    (logs : List RequestLog) (r : RequestLog) (qsL qsA : List RequestLog)
    (hL : recentRequestsQueryset (some term) none none none logs = Except.ok qsL)
    (hA : apiQueryset (some term) none none logs = Except.ok qsA) :
    (r ∈ qsL ↔ r ∈ logs ∧
      (icontains r.path term = true ∨ icontains r.http_method term = true ∨
        icontainsOpt r.remote_ip term = true ∨ icontainsUser r.user term = true)) ∧
    (r ∈ qsA ↔ r ∈ logs ∧
      (icontains r.path term = true ∨ icontains r.http_method term = true ∨
        icontainsOpt r.remote_ip term = true)) := by
  have hb : (term != "") = true := bne_iff_ne.mpr hterm
  have hLv : qsL = orderByTimestampDesc (logs.filter (searchMatchListing term)) := by
    simp [recentRequestsQueryset, pyTruthyStr, hb, Bind.bind, Except.bind] at hL
    exact hL.symm
  have hAv : qsA = (orderByTimestampDesc logs).filter (searchMatchApi term) := by
    simp [apiQueryset, pyTruthyStr, hb, Bind.bind, Except.bind] at hA
    exact hA.symm
  constructor
  · rw [hLv, mem_orderByTimestampDesc, List.mem_filter]
    simp only [searchMatchListing, Bool.or_eq_true]
    tauto
  · rw [hAv, List.mem_filter, mem_orderByTimestampDesc]
    simp only [searchMatchApi, Bool.or_eq_true]
    tauto

/-- Witness for C7 (amended) on the term "alice" over the single-record
store `[sampleLog]`: the listing queryset keeps the record, the API queryset
drops it. -/
theorem c7_witness :
    (sampleLog ∈ ([sampleLog] : List RequestLog) ↔ sampleLog ∈ ([sampleLog] : List RequestLog) ∧
      (icontains sampleLog.path "alice" = true ∨ icontains sampleLog.http_method "alice" = true ∨
        icontainsOpt sampleLog.remote_ip "alice" = true ∨
          icontainsUser sampleLog.user "alice" = true)) ∧
    (sampleLog ∈ ([] : List RequestLog) ↔ sampleLog ∈ ([sampleLog] : List RequestLog) ∧
      (icontains sampleLog.path "alice" = true ∨ icontains sampleLog.http_method "alice" = true ∨
        icontainsOpt sampleLog.remote_ip "alice" = true)) :=
  c7_search_fields_per_surface "alice" (by decide) [sampleLog] sampleLog [sampleLog] [] rfl rfl

end Audit
